import Mathlib

/-!
Shallow embedding of the crawler service (src/index.js): a headless-browser
driver exposing two HTTP endpoints, `/screenshot` and `/scrape`.  The pure
in-page logic (DOM extraction, readiness predicate, URL formatting) is
translated directly; the effectful request pipeline is modelled as a function
from an environment of step outcomes to a response together with an ordered
trace of the steps performed, the final browser state, and the log entries
emitted.
-/

namespace Crawler

/-! ## Logging model (utils/logger.js sink; only the level and message matter) -/

inductive LogLevel where
  | info
  | warn
  | error
deriving DecidableEq, Repr

structure LogEntry where
  level : LogLevel
  msg : String
deriving DecidableEq, Repr

/-! ## DOM model

The in-page evaluation code (`page.evaluate` / `page.waitForFunction`
callbacks) sees the document as a flat, document-ordered list of elements.
An element carries its tag name, its attributes, its trimmed-or-not text
content, and the layout width/height properties used by the image
extraction (`img.width`, defaulting to 0 when the image has no layout box).
-/

structure Element where
  tag : String
  attrs : List (String × String)
  textContent : String
  width : Nat := 0
  height : Nat := 0
deriving DecidableEq, Repr

def getAttr (e : Element) (name : String) : Option String :=
  (e.attrs.find? (fun a => a.fst == name)).map (fun a => a.snd)

def hasAttr (e : Element) (name : String) : Bool :=
  (getAttr e name).isSome

def idIs (e : Element) (v : String) : Bool :=
  getAttr e "id" == some v

def tagIs (e : Element) (t : String) : Bool :=
  e.tag == t

structure Document where
  title : String
  readyState : String
  elements : List Element
deriving DecidableEq, Repr

/-- `document.querySelectorAll(sel)`: all elements matching a selector
predicate, in document order. -/
def querySelectorAll (dom : List Element) (p : Element → Bool) : List Element :=
  dom.filter p

/-- `document.querySelector(sel)`: the first element matching a selector
predicate, if any. -/
def querySelector (dom : List Element) (p : Element → Bool) : Option Element :=
  dom.find? p

/-! ## Extraction engine (the `getData` closure inside the /scrape handler) -/

/-- `const safeTextContent = (element) => element ? element.textContent.trim() : ""` -/
def safeTextContent : Option Element → String
  | some element => element.textContent.trim
  | none => ""

structure Headings where
  h1 : List String
  h2 : List String
  h3 : List String
deriving DecidableEq, Repr

structure ImageData where
  src : String
  alt : String
  title : String
  width : Option Nat
  height : Option Nat
deriving DecidableEq, Repr

structure MetaTags where
  title : String
  description : Option String
  ogTitle : Option String
  ogDescription : Option String
deriving DecidableEq, Repr

structure ScrapedData where
  headings : Headings
  links : List String
  images : List ImageData
  metaTags : MetaTags
  mainContent : List String
deriving DecidableEq, Repr

/-- Selector `meta[name="n"]`. -/
def isMetaNamed (e : Element) (n : String) : Bool :=
  tagIs e "meta" && getAttr e "name" == some n

/-- Selector `meta[property="p"]`. -/
def isMetaProp (e : Element) (p : String) : Bool :=
  tagIs e "meta" && getAttr e "property" == some p

/-- Selector `main, #root, #app, [role="main"]` used by the main-content scan. -/
def isLandmark (e : Element) : Bool :=
  tagIs e "main" || idIs e "root" || idIs e "app" || getAttr e "role" == some "main"

/-- The `getData` in-page evaluation of the /scrape handler
(src/index.js:345-410).  `el?.content` on a found `meta` element reflects the
`content` attribute, defaulting to the empty string when the attribute is
missing; `?.` on a missing element yields `undefined`, modelled as `none`.
`img.src` is modelled as the `src` attribute (resolution of relative URLs is
outside the model); `img.width || null` maps a zero width to `null`. -/
def getData (doc : Document) : ScrapedData :=
  let headings : Headings :=
    { h1 := (querySelectorAll doc.elements (fun h => tagIs h "h1")).map
        (fun h => safeTextContent (some h))
      h2 := (querySelectorAll doc.elements (fun h => tagIs h "h2")).map
        (fun h => safeTextContent (some h))
      h3 := (querySelectorAll doc.elements (fun h => tagIs h "h3")).map
        (fun h => safeTextContent (some h)) }
  let links : List String :=
    (querySelectorAll doc.elements (fun a => tagIs a "a")).map
      (fun a => safeTextContent (some a))
  let images : List ImageData :=
    (querySelectorAll doc.elements (fun i => tagIs i "img")).map
      (fun img =>
        { src := (getAttr img "src").getD ""
          alt := (getAttr img "alt").getD ""
          title := (getAttr img "title").getD ""
          width := if img.width = 0 then none else some img.width
          height := if img.height = 0 then none else some img.height })
  let metaTags : MetaTags :=
    { title := doc.title
      description := (querySelector doc.elements (fun e => isMetaNamed e "description")).map
        (fun e => (getAttr e "content").getD "")
      ogTitle := (querySelector doc.elements (fun e => isMetaProp e "og:title")).map
        (fun e => (getAttr e "content").getD "")
      ogDescription := (querySelector doc.elements (fun e => isMetaProp e "og:description")).map
        (fun e => (getAttr e "content").getD "") }
  let mainContent : List String :=
    ((querySelectorAll doc.elements isLandmark).map
      (fun el => safeTextContent (some el))).filter (fun text => text.length > 0)
  { headings := headings
    links := links
    images := images
    metaTags := metaTags
    mainContent := mainContent }

/-! ## Readiness predicate (the `page.waitForFunction` callback, identical in
both endpoints: src/index.js:144-156 and 317-328) -/

def readinessPredicate (doc : Document) : Bool :=
  let ready := doc.readyState == "complete"
  let reactRoot := querySelector doc.elements (fun e => hasAttr e "data-reactroot")
  let root := querySelector doc.elements (fun e => idIs e "root")
  let app := querySelector doc.elements (fun e => idIs e "app")
  ready
    && (match reactRoot with
        | none => true
        | some e => !(hasAttr e "aria-busy"))
    && (match root with
        | none => true
        | some e => !(hasAttr e "aria-busy"))
    && (match app with
        | none => true
        | some e => !(hasAttr e "aria-busy"))

/-! ## URL validation (the `validateUrl` middleware, src/index.js:37-55) -/

/-- `s.startsWith(pre)` computed on the underlying character sequence
(extensionally the same as `String.startsWith`). -/
def strStartsWith (s pre : String) : Bool :=
  pre.toList.isPrefixOf s.toList

/-- The scheme-prefixing step of `validateUrl` (src/index.js:44-47). -/
def formatUrl (url : String) : String :=
  if !(strStartsWith url "http://") && !(strStartsWith url "https://") then
    "https://" ++ url
  else
    url

inductive ValidationResult where
  | bad (status : Nat) (error : String)
  | ok (effectiveUrl : String)
deriving DecidableEq, Repr

/-- The `validateUrl` middleware over the optional `url` query parameter and a
well-formedness oracle standing for the external WHATWG `new URL` constructor.
The JavaScript truthiness test `if (!url)` also catches the empty string. -/
def validateUrl (parses : String → Bool) (urlParam : Option String) : ValidationResult :=
  match urlParam with
  | none => .bad 400 "URL parameter is required"
  | some url =>
    if url = "" then .bad 400 "URL parameter is required"
    else
      let u := formatUrl url
      if parses u then .ok u else .bad 400 "Invalid URL format"

/-- Modelled from the spec: the well-formedness check performed by the external
WHATWG `new URL` constructor, which is library code not under src/.  The code
only ever applies it to strings beginning with `http://` or `https://` (any
other input was prefixed by `formatUrl` first); for those, well-formedness
requires a nonempty host between the scheme separator and the next delimiter. -/
def urlParses (s : String) : Bool :=
  if strStartsWith s "http://" then
    ((s.toList.drop 7).takeWhile (fun c => !(c == '/') && !(c == '?') && !(c == '#'))) ≠ []
  else if strStartsWith s "https://" then
    ((s.toList.drop 8).takeWhile (fun c => !(c == '/') && !(c == '?') && !(c == '#'))) ≠ []
  else
    false

def isSchemeChar (c : Char) : Bool :=
  c.isAlphanum || c = '+' || c = '-' || c = '.'

/-- The notion of a URL value that already carries a scheme, as the claim
words it (generic URI syntax, RFC 3986 section 3.1): a nonempty
alphabetic-initial run of scheme characters followed by a colon.  This is the
claim-side definition, to be compared with the source-side `formatUrl`, which
only tests for the two literal prefixes `http://` and `https://`. -/
def hasScheme (s : String) : Bool :=
  match s.toList.takeWhile (fun c => !(c == ':')) with
  | [] => false
  | c :: rest => c.isAlpha && rest.all isSchemeChar && (c :: rest).length < s.toList.length

/-! ## Browser process manager (`launchBrowser`, src/index.js:57-100) -/

inductive LaunchOutcome where
  | success (browserId : Nat)
  | failure (msg : String)
deriving Repr

structure LaunchResult where
  result : Except String Nat
  attemptsMade : Nat
  delays : List Nat
  logs : List LogEntry
deriving Repr

def maxRetries : Nat := 3

/-- The `2000` in `delay(2000 * retryCount)` (src/index.js:97). -/
def backoffBase : Nat := 2000

/-- The log entry emitted for a failed launch attempt (src/index.js:93-95).
The source emits it through `logger.error`. -/
def launchFailLog (attempt : Nat) (msg : String) : LogEntry :=
  ⟨.error, s!"Browser launch attempt {attempt} failed: {msg}"⟩

/-- The `while (retryCount < maxRetries)` loop of `launchBrowser`.  The fuel
argument equals `maxRetries - retryCount` on every reachable call, so the
fuel-exhausted branch (like the fall-through after the loop in the source,
which is unreachable because the final failed attempt rethrows) never fires. -/
def launchGo (outcomes : Nat → LaunchOutcome) :
    Nat → Nat → List Nat → List LogEntry → LaunchResult
  | 0, retryCount, delays, logs => ⟨.error "", retryCount, delays, logs⟩
  | fuel + 1, retryCount, delays, logs =>
    if retryCount < maxRetries then
      match outcomes retryCount with
      | .success b => ⟨.ok b, retryCount + 1, delays, logs⟩
      | .failure msg =>
        let rc := retryCount + 1
        let logs2 := logs ++ [launchFailLog rc msg]
        if rc = maxRetries then ⟨.error msg, rc, delays, logs2⟩
        else launchGo outcomes fuel rc (delays ++ [backoffBase * rc]) logs2
    else ⟨.error "", retryCount, delays, logs⟩

/-- `launchBrowser`: up to `maxRetries` launch attempts; `outcomes n` is the
result of the attempt made when `retryCount = n`. -/
def launchBrowser (outcomes : Nat → LaunchOutcome) : LaunchResult :=
  launchGo outcomes maxRetries 0 [] []

/-! ## Navigation controller (the duplicated two-stage `page.goto` block,
src/index.js:124-139 and 297-312) -/

inductive WaitUntil where
  | networkidle0
  | domcontentloaded
deriving DecidableEq, Repr

structure GotoCall where
  url : String
  waitUntil : WaitUntil
  timeout : Nat
deriving DecidableEq, Repr

def strictCall (url : String) : GotoCall :=
  ⟨url, .networkidle0, 60000⟩

def fallbackCall (url : String) : GotoCall :=
  ⟨url, .domcontentloaded, 60000⟩

structure NavResult where
  result : Except String Unit
  calls : List GotoCall
  logs : List LogEntry
deriving Repr

/-- The two-stage navigation: `page.goto(url, {waitUntil: "networkidle0",
timeout: 60000})`, and on any thrown error a warning log followed by
`page.goto(url, {waitUntil: "domcontentloaded", timeout: 60000})`, whose
outcome is the outcome of the whole block. -/
def navigate (nav : GotoCall → Except String Unit) (url : String) : NavResult :=
  match nav (strictCall url) with
  | .ok _ => ⟨.ok (), [strictCall url], []⟩
  | .error msg =>
    let warnLog : LogEntry :=
      ⟨.warn, s!"Initial navigation attempt failed: {msg}. Retrying with domcontentloaded..."⟩
    match nav (fallbackCall url) with
    | .ok _ => ⟨.ok (), [strictCall url, fallbackCall url], [warnLog]⟩
    | .error m2 => ⟨.error m2, [strictCall url, fallbackCall url], [warnLog]⟩

/-! ## Resource-filtering policy (the `page.on("request")` handler,
src/index.js:276-287; scrape path only) -/

inductive RequestAction where
  | abort
  | cont
deriving DecidableEq, Repr

/-- The request-interception handler: abort image/font/media requests,
continue everything else. -/
def requestHandler (resourceType : String) : RequestAction :=
  if resourceType == "image" || resourceType == "font" || resourceType == "media" then
    .abort
  else
    .cont

/-! ## Request pipelines

Each handler is modelled as a function from an environment of step outcomes
to a `HandlerOut`: the HTTP response, the ordered trace of side-effecting
steps performed, whether the launched browser process is still running when
the handler finishes, and the log entries emitted. -/

inductive Step where
  | launchB
  | newPage
  | setRequestInterception
  | installRequestHandler
  | setViewport
  | setUserAgent
  | goto (url : String) (waitUntil : WaitUntil) (timeout : Nat)
  | waitForFunction (timeout : Nat)
  | scroll
  | delayStep (ms : Nat)
  | evaluate
  | screenshotCap
  | uploadStep
  | closePage
  | closeBrowser
  | sendResponse (status : Nat)
deriving DecidableEq, Repr

inductive ResponseBody where
  | jsonError (error : String)
  | scrapeFail (error : String) (code : String) (url : String)
  | scrapeSuccess (url : String) (data : ScrapedData)
  | passthrough (body : String)
deriving DecidableEq, Repr

structure HttpResponse where
  status : Nat
  body : ResponseBody
deriving DecidableEq, Repr

structure HandlerOut where
  response : HttpResponse
  trace : List Step
  browserOpen : Bool
  logs : List LogEntry
deriving DecidableEq, Repr

def gotoSteps (calls : List GotoCall) : List Step :=
  calls.map (fun c => Step.goto c.url c.waitUntil c.timeout)

/-! ### /scrape pipeline (src/index.js:217-429) -/

structure ScrapeEnv where
  launch : Except String Nat
  newPage : Except String Unit
  nav : GotoCall → Except String Unit
  probe : Except String Unit
  scroll : Except String Unit
  eval : Except String Document

def scrapeErrorLog (url msg : String) : LogEntry :=
  ⟨.error, s!"Error scraping URL {url}: {msg}"⟩

/-- The scoped `cleanup` closure of the /scrape handler (src/index.js:223-240):
close the page if it was assigned, then the browser if it was assigned. -/
def cleanupSteps (pageSet browserSet : Bool) : List Step :=
  (if pageSet then [Step.closePage] else []) ++
    (if browserSet then [Step.closeBrowser] else [])

/-- The catch branch of the /scrape handler (src/index.js:420-428): log the
error, run `cleanup`, then send the 500 JSON error envelope. -/
def scrapeFailOut (url msg : String) (pageSet browserSet : Bool)
    (trace : List Step) (logs : List LogEntry) : HandlerOut :=
  { response := ⟨500, .scrapeFail msg "UNKNOWN_ERROR" url⟩
    trace := trace ++ cleanupSteps pageSet browserSet ++ [Step.sendResponse 500]
    browserOpen := false
    logs := logs ++ [scrapeErrorLog url msg] }

def probeWarnScrape (msg : String) : LogEntry :=
  ⟨.warn, s!"Wait for React content timed out: {msg}. Proceeding with scraping..."⟩

def scrapeHandler (env : ScrapeEnv) (url : String) : HandlerOut :=
  match env.launch with
  | .error msg => scrapeFailOut url msg false false [Step.launchB] []
  | .ok _b =>
    match env.newPage with
    | .error msg => scrapeFailOut url msg false true [Step.launchB, Step.newPage] []
    | .ok _ =>
      let pre := [Step.launchB, Step.newPage, Step.setRequestInterception,
        Step.installRequestHandler, Step.setViewport, Step.setUserAgent]
      let n := navigate env.nav url
      let traceNav := pre ++ gotoSteps n.calls
      match n.result with
      | .error msg => scrapeFailOut url msg true true traceNav n.logs
      | .ok _ =>
        let probeLogs : List LogEntry :=
          match env.probe with
          | .ok _ => []
          | .error msg => [probeWarnScrape msg]
        let traceProbe := traceNav ++ [Step.waitForFunction 20000]
        let logs1 := n.logs ++ probeLogs
        match env.scroll with
        | .error msg => scrapeFailOut url msg true true (traceProbe ++ [Step.scroll]) logs1
        | .ok _ =>
          let trace2 := traceProbe ++ [Step.scroll, Step.delayStep 1000, Step.evaluate]
          match env.eval with
          | .error msg => scrapeFailOut url msg true true trace2 logs1
          | .ok doc =>
            { response := ⟨200, .scrapeSuccess url (getData doc)⟩
              trace := trace2 ++ [Step.closeBrowser, Step.sendResponse 200]
              browserOpen := false
              logs := logs1 }

/-! ### /screenshot pipeline (src/index.js:103-214)

Unlike /scrape, the catch branch (src/index.js:203-213) contains no close
call: the browser stays open whenever an error is thrown between the launch
and the success-path `browser.close()`. -/

structure UploadFail where
  msg : String
  response : Option (Nat × String)

structure ShotEnv where
  launch : Except String Nat
  newPage : Except String Unit
  nav : GotoCall → Except String Unit
  probe : Except String Unit
  scroll : Except String Unit
  shot : Except String Unit
  upload : Except UploadFail (Nat × String)

def shotErrorLog (url msg : String) : LogEntry :=
  ⟨.error, s!"Error processing screenshot for URL {url}: {msg}"⟩

/-- The catch branch of the /screenshot handler for errors carrying no axios
response (src/index.js:210-212): log and send a 500, with no teardown. -/
def shotFailOut (url msg : String) (browserOpen : Bool)
    (trace : List Step) (logs : List LogEntry) : HandlerOut :=
  { response := ⟨500, .jsonError msg⟩
    trace := trace ++ [Step.sendResponse 500]
    browserOpen := browserOpen
    logs := logs ++ [shotErrorLog url msg] }

def probeWarnShot (msg : String) : LogEntry :=
  ⟨.warn, s!"Wait for React content timed out: {msg}. Proceeding with screenshot..."⟩

def screenshotHandler (env : ShotEnv) (url : String) : HandlerOut :=
  match env.launch with
  | .error msg => shotFailOut url msg false [Step.launchB] []
  | .ok _b =>
    match env.newPage with
    | .error msg => shotFailOut url msg true [Step.launchB, Step.newPage] []
    | .ok _ =>
      let pre := [Step.launchB, Step.newPage, Step.setUserAgent, Step.setViewport]
      let n := navigate env.nav url
      let traceNav := pre ++ gotoSteps n.calls
      match n.result with
      | .error msg => shotFailOut url msg true traceNav n.logs
      | .ok _ =>
        let probeLogs : List LogEntry :=
          match env.probe with
          | .ok _ => []
          | .error msg => [probeWarnShot msg]
        let traceProbe := traceNav ++ [Step.waitForFunction 20000]
        let logs1 := n.logs ++ probeLogs
        match env.scroll with
        | .error msg => shotFailOut url msg true (traceProbe ++ [Step.scroll]) logs1
        | .ok _ =>
          let trace2 := traceProbe ++ [Step.scroll, Step.delayStep 1000, Step.screenshotCap]
          match env.shot with
          | .error msg => shotFailOut url msg true trace2 logs1
          | .ok _ =>
            let trace3 := trace2 ++ [Step.closeBrowser, Step.uploadStep]
            match env.upload with
            | .ok r =>
              { response := ⟨r.fst, .passthrough r.snd⟩
                trace := trace3 ++ [Step.sendResponse r.fst]
                browserOpen := false
                logs := logs1 }
            | .error uf =>
              match uf.response with
              | some r =>
                { response := ⟨r.fst, .passthrough r.snd⟩
                  trace := trace3 ++ [Step.sendResponse r.fst]
                  browserOpen := false
                  logs := logs1 ++ [shotErrorLog url uf.msg] }
              | none =>
                { response := ⟨500, .jsonError uf.msg⟩
                  trace := trace3 ++ [Step.sendResponse 500]
                  browserOpen := false
                  logs := logs1 ++ [shotErrorLog url uf.msg] }

/-! ### Endpoints: validateUrl middleware composed with the handlers -/

def scrapeEndpoint (parses : String → Bool) (env : ScrapeEnv)
    (urlParam : Option String) : HandlerOut :=
  match validateUrl parses urlParam with
  | .bad s e => ⟨⟨s, .jsonError e⟩, [Step.sendResponse s], false, []⟩
  | .ok u => scrapeHandler env u

def screenshotEndpoint (parses : String → Bool) (env : ShotEnv)
    (urlParam : Option String) : HandlerOut :=
  match validateUrl parses urlParam with
  | .bad s e => ⟨⟨s, .jsonError e⟩, [Step.sendResponse s], false, []⟩
  | .ok u => screenshotHandler env u

def isGoto : Step → Bool
  | .goto _ _ _ => true
  | _ => false

def isInstall : Step → Bool
  | .installRequestHandler => true
  | _ => false

/-- The navigation URLs recorded in a trace. -/
def gotoUrls (t : List Step) : List String :=
  t.filterMap (fun s =>
    match s with
    | .goto u _ _ => some u
    | _ => none)

/-! ## General list helper lemmas used by the extraction theorems -/

theorem filter_filter_of_imp {α : Type} (l : List α) (p q : α → Bool)
    (h : ∀ a ∈ l, p a = true → q a = true) :
    (l.filter q).filter p = l.filter p := by
  rw [List.filter_filter]
  apply List.filter_congr
  intro a ha
  cases hp : p a with
  | true => simp [h a ha hp]
  | false => simp

theorem find_filter_of_imp {α : Type} (l : List α) (p q : α → Bool)
    (h : ∀ a ∈ l, p a = true → q a = true) :
    (l.filter q).find? p = l.find? p := by
  induction l with
  | nil => simp
  | cons a t ih =>
    have ht : ∀ x ∈ t, p x = true → q x = true :=
      fun x hx => h x (List.mem_cons_of_mem a hx)
    cases hq : q a with
    | true =>
      cases hp : p a with
      | true => simp [List.filter_cons, hq, hp]
      | false => simp [List.filter_cons, hq, hp, ih ht]
    | false =>
      have hp : p a = false := by
        cases hp : p a with
        | false => rfl
        | true => rw [h a (List.mem_cons_self a t) hp] at hq; cases hq
      simp [List.filter_cons, hq, hp, ih ht]

theorem filter_neg_filter_eq_nil {α : Type} (l : List α) (p : α → Bool) :
    (l.filter (fun a => !(p a))).filter p = [] := by
  rw [List.filter_eq_nil_iff]
  intro a ha
  have h2 : (!(p a)) = true := (List.mem_filter.mp ha).2
  rw [Bool.not_eq_true'] at h2
  simp [h2]

theorem tagIs_ne_of_tagIs {t u : String} (a : Element) (h : tagIs a t = true)
    (hne : t ≠ u) : tagIs a u = false := by
  simp only [tagIs, beq_iff_eq] at h
  simp only [tagIs, h, beq_eq_false_iff_ne, ne_eq]
  exact hne

/-! ## Concrete fixtures used by witnesses and counterexamples -/

def docPlainW : Document :=
  { title := "Example Domain"
    readyState := "complete"
    elements :=
      [ { tag := "h1", attrs := [], textContent := "  Main Heading " }
      , { tag := "p", attrs := [("class", "lead")], textContent := "Some text" }
      , { tag := "a", attrs := [("href", "/about")], textContent := "About us " } ] }

def docWithH3W : Document :=
  { title := "Example Domain"
    readyState := "complete"
    elements :=
      [ { tag := "h1", attrs := [], textContent := "Main Heading" }
      , { tag := "h3", attrs := [], textContent := "Section 1" }
      , { tag := "a", attrs := [("href", "/a")], textContent := "Link A" }
      , { tag := "h3", attrs := [], textContent := "Section 2" } ] }

def docNoH3W : Document :=
  { title := "Example Domain"
    readyState := "complete"
    elements :=
      [ { tag := "h1", attrs := [], textContent := "Main Heading" }
      , { tag := "a", attrs := [("href", "/a")], textContent := "Link A" } ] }

def navAllOkW : GotoCall → Except String Unit := fun _ => .ok ()

def navStrictFailsW : GotoCall → Except String Unit := fun c =>
  match c.waitUntil with
  | .networkidle0 => .error "Navigation timeout of 60000 ms exceeded"
  | .domcontentloaded => .ok ()

def seDefaultW : ScrapeEnv :=
  { launch := .ok 1
    newPage := .ok ()
    nav := navAllOkW
    probe := .ok ()
    scroll := .ok ()
    eval := .ok docPlainW }

def seNavFallW : ScrapeEnv :=
  { launch := .ok 1
    newPage := .ok ()
    nav := navStrictFailsW
    probe := .ok ()
    scroll := .ok ()
    eval := .ok docPlainW }

def seProbeTimeoutW : ScrapeEnv :=
  { launch := .ok 1
    newPage := .ok ()
    nav := navAllOkW
    probe := .error "Waiting failed: 20000ms exceeded"
    scroll := .ok ()
    eval := .ok docPlainW }

def shDefaultW : ShotEnv :=
  { launch := .ok 1
    newPage := .ok ()
    nav := navAllOkW
    probe := .ok ()
    scroll := .ok ()
    shot := .ok ()
    upload := .ok (200, "uploaded") }

def shProbeTimeoutW : ShotEnv :=
  { launch := .ok 1
    newPage := .ok ()
    nav := navAllOkW
    probe := .error "Waiting failed: 20000ms exceeded"
    scroll := .ok ()
    shot := .ok ()
    upload := .ok (200, "uploaded") }

def shotLeakEnvW : ShotEnv :=
  { launch := .ok 1
    newPage := .ok ()
    nav := fun _ => .error "net::ERR_NAME_NOT_RESOLVED"
    probe := .ok ()
    scroll := .ok ()
    shot := .ok ()
    upload := .error ⟨"unused", none⟩ }

def launchFailSeqW : Nat → LaunchOutcome
  | 0 => .failure "spawn EAGAIN"
  | 1 => .failure "spawn ENOMEM"
  | _ => .failure "browser process exited early"

/-! ## Claim theorems -/

/-- C10: for every page whose `document.readyState` is `"complete"` and which
contains none of the recognized app-root elements (`[data-reactroot]`,
`#root`, `#app`), the readiness predicate evaluates to true: a page with no
recognized application root is judged ready as soon as the document is fully
loaded, without waiting on any busy marker. -/
theorem C10_no_approot_ready (doc : Document)
    (hready : doc.readyState = "complete")
    (hreact : doc.elements.all (fun e => !(hasAttr e "data-reactroot")) = true)
    (hroot : doc.elements.all (fun e => !(idIs e "root")) = true)
    (happ : doc.elements.all (fun e => !(idIs e "app")) = true) :
    readinessPredicate doc = true := by
  have h1 : querySelector doc.elements (fun e => hasAttr e "data-reactroot") = none := by
    rw [querySelector, List.find?_eq_none]
    intro x hx
    have hx2 := List.all_eq_true.mp hreact x hx
    rw [Bool.not_eq_true'] at hx2
    simp [hx2]
  have h2 : querySelector doc.elements (fun e => idIs e "root") = none := by
    rw [querySelector, List.find?_eq_none]
    intro x hx
    have hx2 := List.all_eq_true.mp hroot x hx
    rw [Bool.not_eq_true'] at hx2
    simp [hx2]
  have h3 : querySelector doc.elements (fun e => idIs e "app") = none := by
    rw [querySelector, List.find?_eq_none]
    intro x hx
    have hx2 := List.all_eq_true.mp happ x hx
    rw [Bool.not_eq_true'] at hx2
    simp [hx2]
  simp [readinessPredicate, hready, h1, h2, h3]

/-- C10 witness: a concrete fully-loaded page with no app-root containers is
judged ready. -/
theorem C10_no_approot_ready_witness : readinessPredicate docPlainW = true :=
  C10_no_approot_ready docPlainW rfl (by decide) (by decide) (by decide)

/-- C8: for every scraped page whose head contains no `og:description` meta
tag, the extraction result field `metaTags.ogDescription` is absent (`none`),
not the empty string; likewise `description` and `ogTitle` are absent (never
defaulted to `""`) when their meta tags are not present. -/
theorem C8_meta_absent_undefined (doc : Document) :
    (doc.elements.all (fun e => !(isMetaNamed e "description")) = true →
      (getData doc).metaTags.description = none)
  ∧ (doc.elements.all (fun e => !(isMetaProp e "og:title")) = true →
      (getData doc).metaTags.ogTitle = none)
  ∧ (doc.elements.all (fun e => !(isMetaProp e "og:description")) = true →
      (getData doc).metaTags.ogDescription = none ∧
        (getData doc).metaTags.ogDescription ≠ some "") := by
  refine ⟨fun hd => ?_, fun ht => ?_, fun ho => ?_⟩
  · have hfind : querySelector doc.elements (fun e => isMetaNamed e "description") = none := by
      rw [querySelector, List.find?_eq_none]
      intro x hx
      have hx2 := List.all_eq_true.mp hd x hx
      rw [Bool.not_eq_true'] at hx2
      simp [hx2]
    simp [getData, hfind]
  · have hfind : querySelector doc.elements (fun e => isMetaProp e "og:title") = none := by
      rw [querySelector, List.find?_eq_none]
      intro x hx
      have hx2 := List.all_eq_true.mp ht x hx
      rw [Bool.not_eq_true'] at hx2
      simp [hx2]
    simp [getData, hfind]
  · have hfind : querySelector doc.elements (fun e => isMetaProp e "og:description") = none := by
      rw [querySelector, List.find?_eq_none]
      intro x hx
      have hx2 := List.all_eq_true.mp ho x hx
      rw [Bool.not_eq_true'] at hx2
      simp [hx2]
    simp [getData, hfind]

/-- C8 witness: extracting a concrete page with no meta tags yields all three
optional meta fields absent. -/
theorem C8_meta_absent_undefined_witness :
    (getData docPlainW).metaTags.description = none
  ∧ (getData docPlainW).metaTags.ogTitle = none
  ∧ (getData docPlainW).metaTags.ogDescription = none :=
  ⟨(C8_meta_absent_undefined docPlainW).1 (by decide),
   (C8_meta_absent_undefined docPlainW).2.1 (by decide),
   ((C8_meta_absent_undefined docPlainW).2.2 (by decide)).1⟩

/-- C9: for every scraped page containing zero `h3` elements (modelled as any
page `doc'` equal to a page `doc` with its `h3` elements removed), extraction
yields `headings.h3 = []` — an empty sequence on a fully formed record, not a
missing field and not an error — while every other field (`h1`, `h2`, `links`,
`images`, `metaTags`, and, provided no removed `h3` was itself a landmark
container, `mainContent`) is extracted independently, exactly as on `doc`. -/
theorem C9_empty_h3_independent (doc doc' : Document)
    (helem : doc'.elements = doc.elements.filter (fun e => !(tagIs e "h3")))
    (htitle : doc'.title = doc.title) :
    (getData doc').headings.h3 = []
  ∧ (getData doc').headings.h1 = (getData doc).headings.h1
  ∧ (getData doc').headings.h2 = (getData doc).headings.h2
  ∧ (getData doc').links = (getData doc).links
  ∧ (getData doc').images = (getData doc).images
  ∧ (getData doc').metaTags = (getData doc).metaTags
  ∧ (doc.elements.all (fun e => !(tagIs e "h3" && isLandmark e)) = true →
      (getData doc').mainContent = (getData doc).mainContent) := by
  have htag : ∀ (t : String), t ≠ "h3" →
      ∀ a ∈ doc.elements, tagIs a t = true → (!(tagIs a "h3")) = true := by
    intro t hne a _ha hp
    simp [tagIs_ne_of_tagIs a hp hne]
  have hh1 := filter_filter_of_imp doc.elements (fun h => tagIs h "h1")
    (fun e => !(tagIs e "h3")) (htag "h1" (by decide))
  have hh2 := filter_filter_of_imp doc.elements (fun h => tagIs h "h2")
    (fun e => !(tagIs e "h3")) (htag "h2" (by decide))
  have hli := filter_filter_of_imp doc.elements (fun a => tagIs a "a")
    (fun e => !(tagIs e "h3")) (htag "a" (by decide))
  have him := filter_filter_of_imp doc.elements (fun i => tagIs i "img")
    (fun e => !(tagIs e "h3")) (htag "img" (by decide))
  have hmetaTag : ∀ (n : String),
      ∀ a ∈ doc.elements, isMetaNamed a n = true → (!(tagIs a "h3")) = true := by
    intro n a ha hp
    simp only [isMetaNamed] at hp
    exact htag "meta" (by decide) a ha ((Bool.and_eq_true _ _).mp hp).1
  have hmetaProp : ∀ (p : String),
      ∀ a ∈ doc.elements, isMetaProp a p = true → (!(tagIs a "h3")) = true := by
    intro p a ha hp
    simp only [isMetaProp] at hp
    exact htag "meta" (by decide) a ha ((Bool.and_eq_true _ _).mp hp).1
  have hd := find_filter_of_imp doc.elements (fun e => isMetaNamed e "description")
    (fun e => !(tagIs e "h3")) (hmetaTag "description")
  have ho1 := find_filter_of_imp doc.elements (fun e => isMetaProp e "og:title")
    (fun e => !(tagIs e "h3")) (hmetaProp "og:title")
  have ho2 := find_filter_of_imp doc.elements (fun e => isMetaProp e "og:description")
    (fun e => !(tagIs e "h3")) (hmetaProp "og:description")
  refine ⟨?_, ?_, ?_, ?_, ?_, ?_, fun hno => ?_⟩
  · simp [getData, querySelectorAll, helem, filter_neg_filter_eq_nil]
  · simp [getData, querySelectorAll, helem, hh1]
  · simp [getData, querySelectorAll, helem, hh2]
  · simp [getData, querySelectorAll, helem, hli]
  · simp [getData, querySelectorAll, helem, him]
  · simp [getData, querySelector, helem, htitle, hd, ho1, ho2]
  · have hland : ∀ a ∈ doc.elements, isLandmark a = true → (!(tagIs a "h3")) = true := by
      intro a ha hl
      have h0 := List.all_eq_true.mp hno a ha
      rw [Bool.not_eq_true'] at h0
      rw [hl, Bool.and_true] at h0
      simp [h0]
    have hmain := filter_filter_of_imp doc.elements isLandmark
      (fun e => !(tagIs e "h3")) hland
    simp [getData, querySelectorAll, helem, hmain]

/-- C9 witness: a concrete page with zero `h3` elements yields
`headings.h3 = []` while its other fields match those of the same page with
its `h3` elements present. -/
theorem C9_empty_h3_independent_witness :
    (getData docNoH3W).headings.h3 = []
  ∧ (getData docNoH3W).headings.h1 = (getData docWithH3W).headings.h1
  ∧ (getData docNoH3W).links = (getData docWithH3W).links
  ∧ (getData docNoH3W).mainContent = (getData docWithH3W).mainContent :=
  ⟨(C9_empty_h3_independent docWithH3W docNoH3W (by decide) (by decide)).1,
   (C9_empty_h3_independent docWithH3W docNoH3W (by decide) (by decide)).2.1,
   (C9_empty_h3_independent docWithH3W docNoH3W (by decide) (by decide)).2.2.2.1,
   (C9_empty_h3_independent docWithH3W docNoH3W (by decide) (by decide)).2.2.2.2.2.2
     (by decide)⟩

/-- C3 counterexample: on a concrete run in which all three launch attempts
fail, every per-attempt log entry is emitted at the error level — none at the
warn level — refuting the claim that each failed attempt is logged as a
warning. -/
theorem C3_launch_log_level_counterexample :
    (launchBrowser launchFailSeqW).logs.map LogEntry.level =
      [LogLevel.error, LogLevel.error, LogLevel.error]
  ∧ ((launchBrowser launchFailSeqW).logs.all
      (fun l => !(l.level == LogLevel.warn))) = true
  ∧ LogLevel.error ≠ LogLevel.warn := by
  decide

/-- C3 (amended): for every execution of the browser launcher in which every
launch attempt fails, exactly 3 launch attempts are made, the delay before
attempt n+1 equals `backoffBase * n` (strictly increasing, linear backoff),
each failed attempt is logged as an error, and the error propagated to the
caller is the underlying error of the final (third) attempt. -/
theorem C3_launch_retry_policy (f : Nat → LaunchOutcome) (m0 m1 m2 : String)
    (h0 : f 0 = .failure m0) (h1 : f 1 = .failure m1) (h2 : f 2 = .failure m2) :
    (launchBrowser f).attemptsMade = 3
  ∧ (launchBrowser f).delays = [backoffBase * 1, backoffBase * 2]
  ∧ backoffBase * 1 < backoffBase * 2
  ∧ (launchBrowser f).result = .error m2
  ∧ (launchBrowser f).logs =
      [launchFailLog 1 m0, launchFailLog 2 m1, launchFailLog 3 m2] := by
  simp [launchBrowser, launchGo, maxRetries, backoffBase, h0, h1, h2]

/-- C3 witness: the amended retry-policy theorem applied to a concrete
all-failing launch sequence. -/
theorem C3_launch_retry_policy_witness :
    (launchBrowser launchFailSeqW).attemptsMade = 3
  ∧ (launchBrowser launchFailSeqW).delays = [backoffBase * 1, backoffBase * 2]
  ∧ backoffBase * 1 < backoffBase * 2
  ∧ (launchBrowser launchFailSeqW).result = .error "browser process exited early"
  ∧ (launchBrowser launchFailSeqW).logs =
      [launchFailLog 1 "spawn EAGAIN", launchFailLog 2 "spawn ENOMEM",
       launchFailLog 3 "browser process exited early"] :=
  C3_launch_retry_policy launchFailSeqW "spawn EAGAIN" "spawn ENOMEM"
    "browser process exited early" rfl rfl rfl

/-- C1: evaluation of the /screenshot handler at a failing input.  When both
navigation attempts throw after the browser was launched, the catch branch
(src/index.js:203-213) sends the 500 response without any `browser.close()`:
the browser process is still running when the response is sent, contradicting
the claimed teardown-on-every-path invariant (which the /scrape handler, with
its `cleanup` closure, does satisfy). -/
theorem C1_screenshot_browser_leak :
    (screenshotHandler shotLeakEnvW "https://unreachable.invalid").browserOpen = true
  ∧ (screenshotHandler shotLeakEnvW "https://unreachable.invalid").response.status = 500
  ∧ Step.closeBrowser ∉ (screenshotHandler shotLeakEnvW "https://unreachable.invalid").trace
  ∧ Step.sendResponse 500 ∈ (screenshotHandler shotLeakEnvW "https://unreachable.invalid").trace := by
  decide

/-- C4: on the scrape path, a page request is aborted if and only if its
resource type is image, font, or media; every other request is allowed
through unmodified; and the interception policy step appears in the handler
trace strictly before any navigation: on every environment, the trace prefix
preceding the first `installRequestHandler` step contains no `goto` step (and
branches that never install the handler never navigate at all). -/
theorem C4_resource_filter_policy (se : ScrapeEnv) (url rt : String) :
    (requestHandler rt = .abort ↔ (rt = "image" ∨ rt = "font" ∨ rt = "media"))
  ∧ (requestHandler rt = .cont ↔ ¬(rt = "image" ∨ rt = "font" ∨ rt = "media"))
  ∧ ((scrapeHandler se url).trace.takeWhile (fun s => !(isInstall s))).all
      (fun s => !(isGoto s)) = true := by
  refine ⟨?_, ?_, ?_⟩
  · simp only [requestHandler]
    split
    next hcond =>
      simp only [Bool.or_eq_true, beq_iff_eq] at hcond
      simp [hcond]
      tauto
    next hcond =>
      simp only [Bool.or_eq_true, beq_iff_eq] at hcond
      simp [hcond]
      tauto
  · simp only [requestHandler]
    split
    next hcond =>
      simp only [Bool.or_eq_true, beq_iff_eq] at hcond
      simp [hcond]
      tauto
    next hcond =>
      simp only [Bool.or_eq_true, beq_iff_eq] at hcond
      simp [hcond]
      tauto
  · cases hl : se.launch with
    | error msg => simp [scrapeHandler, hl, scrapeFailOut, cleanupSteps, isInstall, isGoto]
    | ok b =>
      cases hp : se.newPage with
      | error msg => simp [scrapeHandler, hl, hp, scrapeFailOut, cleanupSteps, isInstall, isGoto]
      | ok u =>
        cases hn : (navigate se.nav url).result with
        | error msg =>
          simp [scrapeHandler, hl, hp, hn, scrapeFailOut, cleanupSteps, isInstall, isGoto]
        | ok u2 =>
          cases hs : se.scroll with
          | error msg =>
            simp [scrapeHandler, hl, hp, hn, hs, scrapeFailOut, cleanupSteps, isInstall, isGoto]
          | ok u3 =>
            cases he : se.eval with
            | error msg =>
              simp [scrapeHandler, hl, hp, hn, hs, he, scrapeFailOut, cleanupSteps,
                isInstall, isGoto]
            | ok doc =>
              simp [scrapeHandler, hl, hp, hn, hs, he, isInstall, isGoto]

/-- C4 witness: the filtering theorem applied at a concrete environment and a
concrete media resource type. -/
theorem C4_resource_filter_policy_witness :
    (requestHandler "media" = .abort ↔
      ("media" = "image" ∨ "media" = "font" ∨ "media" = "media"))
  ∧ (requestHandler "media" = .cont ↔
      ¬("media" = "image" ∨ "media" = "font" ∨ "media" = "media"))
  ∧ ((scrapeHandler seDefaultW "https://example.com").trace.takeWhile
      (fun s => !(isInstall s))).all (fun s => !(isGoto s)) = true :=
  C4_resource_filter_policy seDefaultW "https://example.com" "media"

/-- C2: for every navigation, the controller first issues the strict
network-idle `goto` with a 60-second timeout; a second, `domcontentloaded`
`goto` (also bounded by 60 seconds) is issued if and only if the first throws;
the outcome of the block is then the outcome of the second attempt, so if both
fail the whole request fails (500, no extraction step runs), and if the
fallback succeeds processing proceeds past navigation to the readiness
probe. -/
theorem C2_two_stage_navigation (se : ScrapeEnv) (url : String) (b : Nat)
    (hl : se.launch = .ok b) (hp : se.newPage = .ok ()) :
    ((navigate se.nav url).calls.head? = some (strictCall url))
  ∧ ((navigate se.nav url).calls = [strictCall url, fallbackCall url] ↔
      (se.nav (strictCall url)).isOk = false)
  ∧ ((se.nav (strictCall url)).isOk = true →
      (navigate se.nav url).calls = [strictCall url] ∧
        (navigate se.nav url).result = .ok ())
  ∧ ((se.nav (strictCall url)).isOk = false →
      (navigate se.nav url).result = se.nav (fallbackCall url))
  ∧ ((se.nav (strictCall url)).isOk = false →
      (se.nav (fallbackCall url)).isOk = false →
      (scrapeHandler se url).response.status = 500 ∧
        Step.evaluate ∉ (scrapeHandler se url).trace)
  ∧ ((se.nav (strictCall url)).isOk = false →
      (se.nav (fallbackCall url)).isOk = true →
      Step.waitForFunction 20000 ∈ (scrapeHandler se url).trace) := by
  cases h1 : se.nav (strictCall url) with
  | ok v =>
    refine ⟨?_, ?_, ?_, ?_, ?_, ?_⟩ <;>
      simp [navigate, h1, Except.isOk, Except.toBool]
  | error m =>
    cases h2 : se.nav (fallbackCall url) with
    | ok v =>
      refine ⟨?_, ?_, ?_, ?_, ?_, ?_⟩ <;>
        simp [navigate, h1, h2, Except.isOk, Except.toBool]
      cases hs : se.scroll with
      | error m3 =>
        simp [scrapeHandler, hl, hp, navigate, h1, h2, hs, scrapeFailOut,
          cleanupSteps, gotoSteps]
      | ok v3 =>
        cases he : se.eval with
        | error m4 =>
          simp [scrapeHandler, hl, hp, navigate, h1, h2, hs, he, scrapeFailOut,
            cleanupSteps, gotoSteps]
        | ok doc =>
          simp [scrapeHandler, hl, hp, navigate, h1, h2, hs, he, gotoSteps]
    | error m2 =>
      refine ⟨?_, ?_, ?_, ?_, ?_, ?_⟩ <;>
        simp [navigate, h1, h2, Except.isOk, Except.toBool]
      simp [scrapeHandler, hl, hp, navigate, h1, h2, scrapeFailOut,
        cleanupSteps, gotoSteps]

/-- C2 witness: with a strict attempt that times out and a fallback that
succeeds, both calls are issued in order and processing reaches the readiness
probe. -/
theorem C2_two_stage_navigation_witness :
    (navigate seNavFallW.nav "https://example.com").calls =
      [strictCall "https://example.com", fallbackCall "https://example.com"]
  ∧ Step.waitForFunction 20000 ∈
      (scrapeHandler seNavFallW "https://example.com").trace :=
  ⟨((C2_two_stage_navigation seNavFallW "https://example.com" 1 rfl rfl).2.1).mpr
      (by decide),
   (C2_two_stage_navigation seNavFallW "https://example.com" 1 rfl rfl).2.2.2.2.2
      (by decide) (by decide)⟩

/-- C6: for every page on which the readiness probe does not become true
within its 20-second timeout (the `waitForFunction` outcome is an error), the
timeout is swallowed: the request does not fail on that account — the /scrape
request still returns 200 with the extracted data and the /screenshot request
still reaches the capture step — the timeout is logged as a warning, and
capture/extraction proceeds against whatever DOM state exists. -/
theorem C6_probe_timeout_swallowed (se : ScrapeEnv) (sh : ShotEnv) (url : String)
    (b b2 : Nat) (msg msg2 : String) (doc : Document)
    (hl : se.launch = .ok b) (hp : se.newPage = .ok ())
    (hn : se.nav (strictCall url) = .ok ())
    (hprobe : se.probe = .error msg)
    (hs : se.scroll = .ok ()) (he : se.eval = .ok doc)
    (gl : sh.launch = .ok b2) (gp : sh.newPage = .ok ())
    (gn : sh.nav (strictCall url) = .ok ())
    (gprobe : sh.probe = .error msg2)
    (gs : sh.scroll = .ok ()) (gshot : sh.shot = .ok ()) :
    (scrapeHandler se url).response = ⟨200, .scrapeSuccess url (getData doc)⟩
  ∧ probeWarnScrape msg ∈ (scrapeHandler se url).logs
  ∧ Step.evaluate ∈ (scrapeHandler se url).trace
  ∧ probeWarnShot msg2 ∈ (screenshotHandler sh url).logs
  ∧ Step.screenshotCap ∈ (screenshotHandler sh url).trace := by
  refine ⟨?_, ?_, ?_, ?_, ?_⟩
  · simp [scrapeHandler, hl, hp, navigate, hn, hprobe, hs, he, gotoSteps]
  · simp [scrapeHandler, hl, hp, navigate, hn, hprobe, hs, he, gotoSteps]
  · simp [scrapeHandler, hl, hp, navigate, hn, hprobe, hs, he, gotoSteps]
  · cases hu : sh.upload with
    | ok r =>
      simp [screenshotHandler, gl, gp, navigate, gn, gprobe, gs, gshot, hu, gotoSteps]
    | error uf =>
      cases hr : uf.response with
      | some r2 =>
        simp [screenshotHandler, gl, gp, navigate, gn, gprobe, gs, gshot, hu, hr, gotoSteps]
      | none =>
        simp [screenshotHandler, gl, gp, navigate, gn, gprobe, gs, gshot, hu, hr, gotoSteps]
  · cases hu : sh.upload with
    | ok r =>
      simp [screenshotHandler, gl, gp, navigate, gn, gprobe, gs, gshot, hu, gotoSteps]
    | error uf =>
      cases hr : uf.response with
      | some r2 =>
        simp [screenshotHandler, gl, gp, navigate, gn, gprobe, gs, gshot, hu, hr, gotoSteps]
      | none =>
        simp [screenshotHandler, gl, gp, navigate, gn, gprobe, gs, gshot, hu, hr, gotoSteps]

/-- C6 witness: a concrete environment whose readiness probe times out still
yields a 200 scrape response with extracted data, a warning log, and a
screenshot capture step. -/
theorem C6_probe_timeout_swallowed_witness :
    (scrapeHandler seProbeTimeoutW "https://example.com").response =
      ⟨200, .scrapeSuccess "https://example.com" (getData docPlainW)⟩
  ∧ probeWarnScrape "Waiting failed: 20000ms exceeded" ∈
      (scrapeHandler seProbeTimeoutW "https://example.com").logs
  ∧ Step.screenshotCap ∈
      (screenshotHandler shProbeTimeoutW "https://example.com").trace :=
  ⟨(C6_probe_timeout_swallowed seProbeTimeoutW shProbeTimeoutW "https://example.com"
      1 1 "Waiting failed: 20000ms exceeded" "Waiting failed: 20000ms exceeded"
      docPlainW rfl rfl rfl rfl rfl rfl rfl rfl rfl rfl rfl rfl).1,
   (C6_probe_timeout_swallowed seProbeTimeoutW shProbeTimeoutW "https://example.com"
      1 1 "Waiting failed: 20000ms exceeded" "Waiting failed: 20000ms exceeded"
      docPlainW rfl rfl rfl rfl rfl rfl rfl rfl rfl rfl rfl rfl).2.1,
   (C6_probe_timeout_swallowed seProbeTimeoutW shProbeTimeoutW "https://example.com"
      1 1 "Waiting failed: 20000ms exceeded" "Waiting failed: 20000ms exceeded"
      docPlainW rfl rfl rfl rfl rfl rfl rfl rfl rfl rfl rfl rfl).2.2.2.2⟩

/-- C5 counterexample: the request `?url=` (the parameter present but equal to
the empty string) does not parse as an absolute URL even after scheme
prefixing, yet the endpoint answers with the body
`{error: "URL parameter is required"}` — the JavaScript truthiness test
`if (!url)` claims it first — not with `{error: "Invalid URL format"}` as the
claim states for every non-parsing value. -/
theorem C5_empty_url_counterexample :
    urlParses (formatUrl "") = false
  ∧ scrapeEndpoint urlParses seDefaultW (some "") =
      ⟨⟨400, .jsonError "URL parameter is required"⟩, [Step.sendResponse 400], false, []⟩
  ∧ "URL parameter is required" ≠ "Invalid URL format" := by
  decide

/-- C5 (amended): for every request whose `url` query parameter is absent —
or present but equal to the empty string, which the middleware treats the
same way — the endpoint returns 400 with body
`{error: "URL parameter is required"}`; for every nonempty `url` value that
does not parse as a well-formed absolute URL after scheme prefixing it
returns 400 with body `{error: "Invalid URL format"}`; in all these cases the
whole trace is the 400 response alone, so no browser is ever launched. -/
theorem C5_url_validation (parses : String → Bool) (se : ScrapeEnv) (sh : ShotEnv)
    (urlParam : Option String) :
    (urlParam = none →
      scrapeEndpoint parses se urlParam =
        ⟨⟨400, .jsonError "URL parameter is required"⟩, [Step.sendResponse 400], false, []⟩ ∧
      screenshotEndpoint parses sh urlParam =
        ⟨⟨400, .jsonError "URL parameter is required"⟩, [Step.sendResponse 400], false, []⟩)
  ∧ (urlParam = some "" →
      scrapeEndpoint parses se urlParam =
        ⟨⟨400, .jsonError "URL parameter is required"⟩, [Step.sendResponse 400], false, []⟩ ∧
      screenshotEndpoint parses sh urlParam =
        ⟨⟨400, .jsonError "URL parameter is required"⟩, [Step.sendResponse 400], false, []⟩)
  ∧ (∀ u, urlParam = some u → u ≠ "" → parses (formatUrl u) = false →
      scrapeEndpoint parses se urlParam =
        ⟨⟨400, .jsonError "Invalid URL format"⟩, [Step.sendResponse 400], false, []⟩ ∧
      screenshotEndpoint parses sh urlParam =
        ⟨⟨400, .jsonError "Invalid URL format"⟩, [Step.sendResponse 400], false, []⟩) := by
  refine ⟨fun h => ?_, fun h => ?_, fun u hu hne hparse => ?_⟩
  · subst h
    exact ⟨by simp [scrapeEndpoint, validateUrl], by simp [screenshotEndpoint, validateUrl]⟩
  · subst h
    exact ⟨by simp [scrapeEndpoint, validateUrl], by simp [screenshotEndpoint, validateUrl]⟩
  · subst hu
    exact ⟨by simp [scrapeEndpoint, validateUrl, hne, hparse],
      by simp [screenshotEndpoint, validateUrl, hne, hparse]⟩

/-- C5 witness: the amended validation theorem applied to the concrete
ill-formed value `https://` (empty host), which survives the emptiness test
but fails URL parsing. -/
theorem C5_url_validation_witness :
    scrapeEndpoint urlParses seDefaultW (some "https://") =
      ⟨⟨400, .jsonError "Invalid URL format"⟩, [Step.sendResponse 400], false, []⟩
  ∧ screenshotEndpoint urlParses shDefaultW (some "https://") =
      ⟨⟨400, .jsonError "Invalid URL format"⟩, [Step.sendResponse 400], false, []⟩ :=
  (C5_url_validation urlParses seDefaultW shDefaultW (some "https://")).2.2 "https://"
    rfl (by decide) (by decide)

/-- Every navigation URL recorded in a /scrape handler trace is the URL the
handler was invoked with. -/
theorem scrapeHandler_goto_urls (se : ScrapeEnv) (u : String) :
    ∀ x ∈ gotoUrls (scrapeHandler se u).trace, x = u := by
  cases hl : se.launch with
  | error msg => simp [scrapeHandler, hl, scrapeFailOut, cleanupSteps, gotoUrls]
  | ok b =>
    cases hp : se.newPage with
    | error msg => simp [scrapeHandler, hl, hp, scrapeFailOut, cleanupSteps, gotoUrls]
    | ok v =>
      cases h1 : se.nav (strictCall u) with
      | ok v1 =>
        cases hs : se.scroll with
        | error m3 =>
          simp [scrapeHandler, hl, hp, navigate, h1, hs, scrapeFailOut, cleanupSteps,
            gotoSteps, gotoUrls]
          simp [strictCall]
        | ok v3 =>
          cases he : se.eval with
          | error m4 =>
            simp [scrapeHandler, hl, hp, navigate, h1, hs, he, scrapeFailOut,
              cleanupSteps, gotoSteps, gotoUrls]
            simp [strictCall]
          | ok doc =>
            simp [scrapeHandler, hl, hp, navigate, h1, hs, he, gotoSteps, gotoUrls]
            simp [strictCall]
      | error m =>
        cases h2 : se.nav (fallbackCall u) with
        | ok v2 =>
          cases hs : se.scroll with
          | error m3 =>
            simp [scrapeHandler, hl, hp, navigate, h1, h2, hs, scrapeFailOut,
              cleanupSteps, gotoSteps, gotoUrls]
            simp [strictCall, fallbackCall]
          | ok v3 =>
            cases he : se.eval with
            | error m4 =>
              simp [scrapeHandler, hl, hp, navigate, h1, h2, hs, he, scrapeFailOut,
                cleanupSteps, gotoSteps, gotoUrls]
              simp [strictCall, fallbackCall]
            | ok doc =>
              simp [scrapeHandler, hl, hp, navigate, h1, h2, hs, he, gotoSteps,
                gotoUrls]
              simp [strictCall, fallbackCall]
        | error m2 =>
          simp [scrapeHandler, hl, hp, navigate, h1, h2, scrapeFailOut, cleanupSteps,
            gotoSteps, gotoUrls]
          simp [strictCall, fallbackCall]

/-- C7 (amended): for every `url` query value that does not start with the
literal prefix `http://` or `https://` — the only check the code performs, so
a value carrying any other scheme, such as `ftp://example.com`, is prefixed
too — the effective URL used for validation and all downstream processing is
the value prefixed with `https://`; values starting with `http://` or
`https://` are used unchanged.  Downstream use: a valid request proceeds as
the handler invoked on `formatUrl url`, and every navigation in the endpoint
trace targets `formatUrl url`. -/
theorem C7_scheme_prefixing (parses : String → Bool) (se : ScrapeEnv) (url : String) :
    (strStartsWith url "http://" = false → strStartsWith url "https://" = false →
      formatUrl url = "https://" ++ url)
  ∧ ((strStartsWith url "http://" = true ∨ strStartsWith url "https://" = true) →
      formatUrl url = url)
  ∧ (url ≠ "" → parses (formatUrl url) = true →
      scrapeEndpoint parses se (some url) = scrapeHandler se (formatUrl url))
  ∧ (∀ x ∈ gotoUrls (scrapeEndpoint parses se (some url)).trace, x = formatUrl url) := by
  refine ⟨fun h1 h2 => ?_, fun h => ?_, fun hne hparse => ?_, ?_⟩
  · simp [formatUrl, h1, h2]
  · rcases h with h | h <;> simp [formatUrl, h]
  · simp [scrapeEndpoint, validateUrl, hne, hparse]
  · intro x hx
    by_cases hz : url = ""
    · subst hz
      simp [scrapeEndpoint, validateUrl, gotoUrls] at hx
    · cases hq : parses (formatUrl url) with
      | false =>
        simp [scrapeEndpoint, validateUrl, hz, hq, gotoUrls] at hx
      | true =>
        simp only [scrapeEndpoint, validateUrl, hz, hq, if_false, if_true,
          reduceIte] at hx
        exact scrapeHandler_goto_urls se (formatUrl url) x hx

/-- C7 counterexample: `ftp://example.com` carries a scheme in the generic
URI sense, yet the code still prefixes it with `https://`, so a value that
already carries a (non-http) scheme is not used unchanged, contrary to the
claim. -/
theorem C7_foreign_scheme_counterexample :
    hasScheme "ftp://example.com" = true
  ∧ formatUrl "ftp://example.com" = "https://ftp://example.com"
  ∧ formatUrl "ftp://example.com" ≠ "ftp://example.com" := by
  decide

/-- C7 witness: a scheme-less value is prefixed with `https://` and a valid
request proceeds downstream on the prefixed URL. -/
theorem C7_scheme_prefixing_witness :
    formatUrl "example.com" = "https://" ++ "example.com"
  ∧ scrapeEndpoint urlParses seDefaultW (some "example.com") =
      scrapeHandler seDefaultW (formatUrl "example.com") :=
  ⟨(C7_scheme_prefixing urlParses seDefaultW "example.com").1 (by decide) (by decide),
   (C7_scheme_prefixing urlParses seDefaultW "example.com").2.2.1 (by decide) (by decide)⟩

end Crawler
